import Mathlib

/-!
Verification of the drf-addons authentication module (src/drfaddons/auth.py).

The development shallowly embeds the two components of the module:

* the credential locator, `JSONWebTokenAuthenticationQS.get_authorization`
  and `JSONWebTokenAuthenticationQS.get_jwt_value`, which finds a raw JWT
  string in the request body, header or cookie; and
* the payload builder `jwt_payload_handler`, which builds the claim
  dictionary for a freshly issued token.

Byte strings of the Python code are modelled as `String` (the code only
ever compares and splits them); request body, header and cookie mappings
are modelled as partial maps `String → Option String`; the Python `dict`
payload is modelled as an association list updated with dict semantics
(overwrite in place, append if the key is new).
-/

namespace DrfAddons

/-- Python `str.lower` / `bytes.lower` (ASCII case folding). -/
def lowerStr (s : String) : String := ⟨s.data.map Char.toLower⟩

/-- Python `str.upper` (ASCII case folding). -/
def upperStr (s : String) : String := ⟨s.data.map Char.toUpper⟩

/-- Helper for `pySplit`: walks the character list, accumulating the
current token (reversed) in `acc`; whitespace ends a token, runs of
whitespace produce no empty tokens. -/
def pySplitAux : List Char → List Char → List String
  | [], acc => if acc.isEmpty then [] else [⟨acc.reverse⟩]
  | c :: cs, acc =>
    if c.isWhitespace then
      if acc.isEmpty then pySplitAux cs []
      else (⟨acc.reverse⟩ : String) :: pySplitAux cs []
    else pySplitAux cs (c :: acc)

/-- Python `str.split()` with no arguments: split on runs of whitespace,
discarding empty tokens. -/
def pySplit (s : String) : List String := pySplitAux s.data []

/-- The class-level configuration of `JSONWebTokenAuthenticationQS`:
`key` (Django setting JWT_AUTH_KEY, default "Authorization"),
`hdrPfx` (api_settings.JWT_AUTH_HEADER_PREFIX) and
`cookie` (api_settings.JWT_AUTH_COOKIE, possibly None). -/
structure AuthConfig where
  key : String
  hdrPfx : String
  cookie : Option String

/-- The parts of a Django request the locator reads: the parsed body
mapping `request.data`, the header mapping `request.META`, and
`request.COOKIES`.  Each lookup returns `none` for a missing key. -/
structure Request where
  data : String → Option String
  META : String → Option String
  COOKIES : String → Option String

/-- `header_key = 'HTTP_' + key.upper()` (class attribute). -/
def header_key (cfg : AuthConfig) : String := "HTTP_" ++ upperStr cfg.key

/-- `get_authorization`:
`auth = request.data.get(self.key, b'') or request.META.get(self.header_key, b'')`.
A present-but-empty body value is falsy in Python, so the header is
consulted exactly when the body value is absent or empty. -/
def get_authorization (cfg : AuthConfig) (req : Request) : String :=
  let b := (req.data cfg.key).getD ""
  if b ≠ "" then b else (req.META (header_key cfg)).getD ""

/-- Outcome of `get_jwt_value`: a token string, `None` (proceed
unauthenticated), or an `exceptions.AuthenticationFailed` with a
message. -/
inductive JwtResult where
  | token (t : String)
  | absent
  | failed (msg : String)
deriving DecidableEq

/-- Message of the `AuthenticationFailed` raised for a one-element
sequence. -/
def noCredentialsMsg : String :=
  "Invalid Authorization header. No credentials provided."

/-- Message of the `AuthenticationFailed` raised for a sequence longer
than two. -/
def spacesMsg : String :=
  "Invalid Authorization header. Credentials string should not contain spaces."

/-- `auth = self.get_authorization(request).split()`. -/
def authTokens (cfg : AuthConfig) (req : Request) : List String :=
  pySplit (get_authorization cfg req)

/-- The token sequence after the empty-prefix sentinel step:
`if len(auth_header_prefix) < 1: auth.append(''); auth.reverse()`.
(`auth_header_prefix = self.prefix.lower() or ''` is empty exactly when
the configured header value is empty.) -/
def authSeq (cfg : AuthConfig) (req : Request) : List String :=
  let auth := authTokens cfg req
  if lowerStr cfg.hdrPfx = "" then (auth ++ [""]).reverse else auth

/-- `get_jwt_value`, the credential locator. -/
def get_jwt_value (cfg : AuthConfig) (req : Request) : JwtResult :=
  if authTokens cfg req = [] then
    match cfg.cookie with
    | some c =>
      if c ≠ "" then
        match req.COOKIES c with
        | some v => .token v
        | none => .absent
      else .absent
    | none => .absent
  else
    let auth := authSeq cfg req
    if lowerStr (auth.headD "") ≠ lowerStr cfg.hdrPfx then .absent
    else if auth.length = 1 then .failed noCredentialsMsg
    else if 2 < auth.length then .failed spacesMsg
    else .token (auth.getD 1 "")

/-- The user primary key `user.pk`: either a plain scalar id or a
`uuid.UUID` (carried here by its canonical string form). -/
inductive PK where
  | int (n : Int)
  | uuid (s : String)
deriving DecidableEq

/-- Values stored in the payload dict. -/
inductive JVal where
  | str (s : String)
  | int (n : Int)
  | bool (b : Bool)
  | time (t : Nat)
  | uuid (s : String)
  | null
  | obj (fields : List (String × JVal))

/-- The delegated-assignee record referenced by `user.assigned_to`. -/
structure Assignee where
  name : String
  mobile : String
  email : String

/-- The duck-typed user record read by `jwt_payload_handler`.  An
optional attribute is `none` when `hasattr` is false; `assigned_to` is
doubly optional: the outer layer is attribute presence, the inner layer
is the truthiness test `if user.assigned_to`. -/
structure User where
  pk : PK
  is_staff : Bool
  email : Option String
  mobile : Option String
  name : Option String
  username : String
  organization : Option JVal
  assigned_to : Option (Option Assignee)

/-- The api_settings values `jwt_payload_handler` reads, together with
the externally resolved username field name (`get_username_field`). -/
structure ApiSettings where
  JWT_EXPIRATION_DELTA : Nat
  JWT_ALLOW_REFRESH : Bool
  JWT_AUDIENCE : Option String
  JWT_ISSUER : Option String
  usernameField : String

/-- Dict lookup `payload.get(k)`. -/
def dget : List (String × JVal) → String → Option JVal
  | [], _ => none
  | (k₂, v) :: rest, k => if k₂ = k then some v else dget rest k

/-- Dict assignment `payload[k] = v`: overwrite in place if the key is
present, append otherwise. -/
def dset : List (String × JVal) → String → JVal → List (String × JVal)
  | [], k, v => [(k, v)]
  | (k₂, v₂) :: rest, k, v =>
    if k₂ = k then (k₂, v) :: rest else (k₂, v₂) :: dset rest k v

/-- `if hasattr(user, k): payload[k] = value` — assign only when the
attribute is present. -/
def hset (p : List (String × JVal)) (k : String) (o : Option JVal) :
    List (String × JVal) :=
  match o with
  | some v => dset p k v
  | none => p

/-- `if user.assigned_to: {...} else None` — a truthy assignee becomes a
nested dict with keys name, mobile, email; a null assignee becomes an
explicit null. -/
def assignedToVal : Option Assignee → JVal
  | some a => JVal.obj
      [("name", JVal.str a.name), ("mobile", JVal.str a.mobile),
       ("email", JVal.str a.email)]
  | none => JVal.null

/-- The native payload value of `user.pk`. -/
def pkVal : PK → JVal
  | .int n => .int n
  | .uuid s => .uuid s

/-- `isinstance(user.pk, uuid.UUID)`. -/
def isUuid : PK → Bool
  | .uuid _ => true
  | .int _ => false

/-- `str(user.pk)`: the canonical string form. -/
def pkStr : PK → String
  | .int n => toString n
  | .uuid s => s

/-- Whether a payload value is JSON-scalar-serializable (a native UUID
object or a nested dict is not). -/
def scalarSerializable : JVal → Bool
  | .uuid _ => false
  | .obj _ => false
  | _ => true

/-- `jwt_payload_handler`: builds the claim dict for user `u` at UTC
time `now` (epoch seconds) under settings `st`. -/
def jwt_payload_handler (st : ApiSettings) (now : Nat) (u : User) :
    List (String × JVal) :=
  let payload : List (String × JVal) :=
    [("user_id", pkVal u.pk),
     ("is_admin", JVal.bool u.is_staff),
     ("exp", JVal.time (now + st.JWT_EXPIRATION_DELTA))]
  let payload := hset payload "email" (u.email.map JVal.str)
  let payload := hset payload "mobile" (u.mobile.map JVal.str)
  let payload := hset payload "name" (u.name.map JVal.str)
  let payload :=
    if isUuid u.pk then dset payload "user_id" (JVal.str (pkStr u.pk))
    else payload
  let payload := dset payload st.usernameField (JVal.str u.username)
  let payload := hset payload "organization" u.organization
  let payload := hset payload "assigned_to" (u.assigned_to.map assignedToVal)
  let payload :=
    if st.JWT_ALLOW_REFRESH then dset payload "orig_iat" (JVal.int now)
    else payload
  let payload := hset payload "aud" (st.JWT_AUDIENCE.map JVal.str)
  let payload := hset payload "iss" (st.JWT_ISSUER.map JVal.str)
  payload

/-! ### Concrete inputs used by the witness theorems -/

def cfg1 : AuthConfig := { key := "Authorization", hdrPfx := "JWT", cookie := none }

def req1 : Request :=
  { data := fun k => if k = "Authorization" then some "JWT abc123" else none
    META := fun _ => none
    COOKIES := fun _ => none }

def cfg2 : AuthConfig := { key := "Authorization", hdrPfx := "JWT", cookie := none }

def req2 : Request :=
  { data := fun k => if k = "Authorization" then some "JWT bodytoken" else none
    META := fun k => if k = "HTTP_AUTHORIZATION" then some "JWT headertoken" else none
    COOKIES := fun _ => none }

def cfg3 : AuthConfig := { key := "Authorization", hdrPfx := "JWT", cookie := none }

def req3 : Request :=
  { data := fun k => if k = "Authorization" then some "JWT" else none
    META := fun _ => none
    COOKIES := fun _ => none }

def cfg4 : AuthConfig := { key := "Authorization", hdrPfx := "JWT", cookie := some "jwt" }

def req4 : Request :=
  { data := fun _ => none
    META := fun _ => none
    COOKIES := fun k => if k = "jwt" then some "cookietoken" else none }

def cfg5 : AuthConfig := { key := "Authorization", hdrPfx := "JWT", cookie := none }

def req5 : Request :=
  { data := fun k => if k = "Authorization" then some "Bearer abc123" else none
    META := fun _ => none
    COOKIES := fun _ => none }

def cfg6 : AuthConfig := { key := "Authorization", hdrPfx := "", cookie := none }

def req6 : Request :=
  { data := fun _ => none
    META := fun k => if k = "HTTP_AUTHORIZATION" then some "xyz789" else none
    COOKIES := fun _ => none }

def cfg10 : AuthConfig := { key := "Authorization", hdrPfx := "", cookie := none }

def req10 : Request :=
  { data := fun k => if k = "Authorization" then some "abc def" else none
    META := fun _ => none
    COOKIES := fun _ => none }

def st7 : ApiSettings :=
  { JWT_EXPIRATION_DELTA := 300, JWT_ALLOW_REFRESH := false,
    JWT_AUDIENCE := none, JWT_ISSUER := none, usernameField := "username" }

def st8 : ApiSettings :=
  { JWT_EXPIRATION_DELTA := 300, JWT_ALLOW_REFRESH := false,
    JWT_AUDIENCE := none, JWT_ISSUER := none, usernameField := "username" }

def u8 : User :=
  { pk := PK.int 7, is_staff := false, email := none, mobile := none,
    name := none, username := "user8", organization := none,
    assigned_to := some none }

def st9 : ApiSettings :=
  { JWT_EXPIRATION_DELTA := 300, JWT_ALLOW_REFRESH := false,
    JWT_AUDIENCE := none, JWT_ISSUER := none, usernameField := "username" }

def u9 : User :=
  { pk := PK.uuid "123e4567-e89b-12d3-a456-426655440000", is_staff := true,
    email := none, mobile := none, name := none, username := "user9",
    organization := none, assigned_to := none }

/-! ### Helper lemmas about the payload dict operations -/

theorem dget_dset_self (p : List (String × JVal)) (k : String) (v : JVal) :
    dget (dset p k v) k = some v := by
  induction p with
  | nil => simp [dget, dset]
  | cons hd tl ih =>
    obtain ⟨k₂, v₂⟩ := hd
    by_cases h : k₂ = k <;> simp [dget, dset, h, ih]

theorem dget_dset_ne (p : List (String × JVal)) {k k₂ : String} (v : JVal)
    (h : k₂ ≠ k) : dget (dset p k₂ v) k = dget p k := by
  induction p with
  | nil => simp [dget, dset, h]
  | cons hd tl ih =>
    obtain ⟨k₃, v₃⟩ := hd
    by_cases h₃ : k₃ = k₂ <;> simp [dget, dset, h₃, h, ih]

theorem hset_none (p : List (String × JVal)) (k : String) :
    hset p k none = p := rfl

theorem dget_hset_ne (p : List (String × JVal)) {k k₂ : String}
    (o : Option JVal) (h : k₂ ≠ k) : dget (hset p k₂ o) k = dget p k := by
  cases o with
  | none => rfl
  | some v => exact dget_dset_ne p v h

theorem dget_dite_ne (p : List (String × JVal)) {k k₂ : String} (v : JVal)
    (b : Bool) (h : k₂ ≠ k) :
    dget (if b then dset p k₂ v else p) k = dget p k := by
  cases b
  · rfl
  · exact dget_dset_ne p v h

theorem isSome_dget_dset (p : List (String × JVal)) (k k₂ : String) (v : JVal)
    (h : (dget p k).isSome = true) : (dget (dset p k₂ v) k).isSome = true := by
  by_cases hk : k₂ = k
  · subst hk; simp [dget_dset_self]
  · rw [dget_dset_ne p v hk]; exact h

theorem isSome_dget_dset_self (p : List (String × JVal)) (k : String) (v : JVal) :
    (dget (dset p k v) k).isSome = true := by
  simp [dget_dset_self]

theorem isSome_dget_hset (p : List (String × JVal)) (k k₂ : String)
    (o : Option JVal) (h : (dget p k).isSome = true) :
    (dget (hset p k₂ o) k).isSome = true := by
  cases o with
  | none => exact h
  | some v => exact isSome_dget_dset p k k₂ v h

theorem isSome_dget_dite (p : List (String × JVal)) (k k₂ : String) (v : JVal)
    (b : Bool) (h : (dget p k).isSome = true) :
    (dget (if b then dset p k₂ v else p) k).isSome = true := by
  cases b
  · exact h
  · exact isSome_dget_dset p k k₂ v h

/-! ### Helper lemmas about the locator -/

theorem get_authorization_body (cfg : AuthConfig) (req : Request) {v : String}
    (hb : req.data cfg.key = some v) (hv : v ≠ "") :
    get_authorization cfg req = v := by
  simp [get_authorization, hb, hv]

theorem lowerStr_empty : lowerStr "" = "" := rfl

theorem lowerStr_ne_empty {s : String} (h : s ≠ "") : lowerStr s ≠ "" := by
  intro hc
  apply h
  apply String.ext
  have hd : s.data.map Char.toLower = ([] : List Char) := congrArg String.data hc
  have h0 : s.data = [] := List.map_eq_nil_iff.mp hd
  rw [h0]

/-! ### Claim theorems for the credential locator -/

/-- Claim C1: for every request in which the configured credential field
is present in the body with a value that splits into exactly two
whitespace-separated tokens and whose first token, lower-cased, equals
the configured non-empty header keyword lower-cased, `get_jwt_value`
returns the second token. -/
theorem claim_C1 (cfg : AuthConfig) (req : Request) (v t₁ t₂ : String)
    (hp : cfg.hdrPfx ≠ "")
    (hb : req.data cfg.key = some v)
    (hs : pySplit v = [t₁, t₂])
    (hm : lowerStr t₁ = lowerStr cfg.hdrPfx) :
    get_jwt_value cfg req = JwtResult.token t₂ := by
  have hv : v ≠ "" := by
    intro h
    rw [h] at hs
    simp [pySplit, pySplitAux] at hs
  have ha : authTokens cfg req = [t₁, t₂] := by
    rw [authTokens, get_authorization_body cfg req hb hv, hs]
  have hlp : lowerStr cfg.hdrPfx ≠ "" := lowerStr_ne_empty hp
  have hseq : authSeq cfg req = [t₁, t₂] := by
    simp [authSeq, ha, hlp]
  simp [get_jwt_value, ha, hseq, hm]

/-- Witness for C1: key "Authorization", keyword "JWT", body value
"JWT abc123" yields the token "abc123". -/
theorem claim_C1_witness : get_jwt_value cfg1 req1 = JwtResult.token "abc123" :=
  claim_C1 cfg1 req1 "JWT abc123" "JWT" "abc123" (by decide) (by decide)
    (by decide) rfl

/-- Claim C2: the raw credential is taken from the body mapping under the
configured field name; only when that body value is absent or empty is
the transformed header name (HTTP_ plus the upper-cased field name)
consulted, so a non-empty body value always wins over the header. -/
theorem claim_C2 (cfg : AuthConfig) (req : Request) :
    (∀ v, req.data cfg.key = some v → v ≠ "" →
       get_authorization cfg req = v) ∧
    ((req.data cfg.key).getD "" = "" →
       get_authorization cfg req =
         (req.META ("HTTP_" ++ upperStr cfg.key)).getD "") := by
  constructor
  · intro v hb hv
    exact get_authorization_body cfg req hb hv
  · intro h0
    simp [get_authorization, header_key, h0]

/-- Witness for C2: body and header both carry a credential; the body
value is the one retrieved. -/
theorem claim_C2_witness : get_authorization cfg2 req2 = "JWT bodytoken" :=
  (claim_C2 cfg2 req2).1 "JWT bodytoken" (by decide) (by decide)

/-- Claim C3: when the (possibly sentinel-extended) token sequence passes
the keyword comparison, a one-element sequence fails with the
no-credentials message and a more-than-two-element sequence fails with
the unexpected-whitespace message; both are `AuthenticationFailed`
outcomes, not absence. -/
theorem claim_C3 (cfg : AuthConfig) (req : Request)
    (hne : authTokens cfg req ≠ [])
    (hm : lowerStr ((authSeq cfg req).headD "") = lowerStr cfg.hdrPfx) :
    ((authSeq cfg req).length = 1 →
       get_jwt_value cfg req = JwtResult.failed noCredentialsMsg) ∧
    (2 < (authSeq cfg req).length →
       get_jwt_value cfg req = JwtResult.failed spacesMsg) := by
  rw [List.headD_eq_head?] at hm
  constructor
  · intro h1
    simp [get_jwt_value, hne, hm, h1]
  · intro h2
    have h1 : ¬(authSeq cfg req).length = 1 := by omega
    simp [get_jwt_value, hne, hm, h1, h2]

/-- Witness for C3: body value "JWT" (the keyword alone) fails with the
no-credentials message. -/
theorem claim_C3_witness :
    get_jwt_value cfg3 req3 = JwtResult.failed noCredentialsMsg :=
  (claim_C3 cfg3 req3 (by decide) (by decide)).1 (by decide)

/-- Claim C4: when neither body nor header yields any token (the split
sequence is empty) and a cookie name is configured, `get_jwt_value`
returns the literal stored cookie value, or absent when the cookie is
unset, and never fails; with no cookie configured it returns absent. -/
theorem claim_C4 (cfg : AuthConfig) (req : Request)
    (h0 : authTokens cfg req = []) :
    (∀ c, cfg.cookie = some c → c ≠ "" →
       ((∀ v, req.COOKIES c = some v →
           get_jwt_value cfg req = JwtResult.token v) ∧
        (req.COOKIES c = none → get_jwt_value cfg req = JwtResult.absent))) ∧
    (cfg.cookie = none → get_jwt_value cfg req = JwtResult.absent) := by
  constructor
  · intro c hc hcne
    constructor
    · intro v hv
      simp [get_jwt_value, h0, hc, hcne, hv]
    · intro hv
      simp [get_jwt_value, h0, hc, hcne, hv]
  · intro hc
    simp [get_jwt_value, h0, hc]

/-- Witness for C4: empty body and header, cookie "jwt" storing
"cookietoken" yields that literal value. -/
theorem claim_C4_witness : get_jwt_value cfg4 req4 = JwtResult.token "cookietoken" :=
  ((claim_C4 cfg4 req4 (by decide)).1 "jwt" rfl (by decide)).1 "cookietoken"
    (by decide)

/-- Claim C5: whenever the first element of the (possibly
sentinel-extended) token sequence, lower-cased, differs from the
lower-cased configured keyword, `get_jwt_value` returns absent and never
fails. -/
theorem claim_C5 (cfg : AuthConfig) (req : Request)
    (hne : authTokens cfg req ≠ [])
    (hm : lowerStr ((authSeq cfg req).headD "") ≠ lowerStr cfg.hdrPfx) :
    get_jwt_value cfg req = JwtResult.absent := by
  rw [List.headD_eq_head?] at hm
  simp [get_jwt_value, hne, hm]

/-- Witness for C5: keyword "JWT" but body value "Bearer abc123" yields
absent, not an error. -/
theorem claim_C5_witness : get_jwt_value cfg5 req5 = JwtResult.absent :=
  claim_C5 cfg5 req5 (by decide) (by decide)

/-- Claim C6: with an empty configured keyword and a single-token
credential, the empty sentinel is prepended, the keyword check passes
and `get_jwt_value` returns the token unchanged. -/
theorem claim_C6 (cfg : AuthConfig) (req : Request) (t : String)
    (hp : cfg.hdrPfx = "")
    (hs : authTokens cfg req = [t]) :
    get_jwt_value cfg req = JwtResult.token t := by
  have hseq : authSeq cfg req = ["", t] := by
    simp [authSeq, hs, hp, lowerStr_empty]
  simp [get_jwt_value, hs, hseq, hp, lowerStr_empty]

/-- Witness for C6: empty keyword, header HTTP_AUTHORIZATION carrying
"xyz789" yields the token "xyz789". -/
theorem claim_C6_witness : get_jwt_value cfg6 req6 = JwtResult.token "xyz789" :=
  claim_C6 cfg6 req6 "xyz789" rfl (by decide)

/-- Claim C10: with an empty configured keyword and a credential that
splits into two or more tokens, the sentinel makes the sequence at least
three elements long with the empty string first, so the keyword check
passes and `get_jwt_value` always fails with the unexpected-whitespace
message, never returning a token. -/
theorem claim_C10 (cfg : AuthConfig) (req : Request)
    (hp : cfg.hdrPfx = "")
    (hlen : 2 ≤ (authTokens cfg req).length) :
    get_jwt_value cfg req = JwtResult.failed spacesMsg := by
  have hne : authTokens cfg req ≠ [] := by
    intro h
    rw [h] at hlen
    simp at hlen
  have hseq : authSeq cfg req = "" :: (authTokens cfg req).reverse := by
    simp [authSeq, hp, lowerStr_empty]
  have hm : lowerStr ((authSeq cfg req).headD "") = lowerStr cfg.hdrPfx := by
    rw [hseq, hp]
    simp [lowerStr_empty]
  have hlen2 : (authSeq cfg req).length = (authTokens cfg req).length + 1 := by
    rw [hseq]
    simp
  have h1 : ¬(authSeq cfg req).length = 1 := by omega
  have h2 : 2 < (authSeq cfg req).length := by omega
  rw [List.headD_eq_head?] at hm
  simp [get_jwt_value, hne, hm, h1, h2]

/-- Witness for C10: empty keyword, body value "abc def" fails with the
unexpected-whitespace message. -/
theorem claim_C10_witness : get_jwt_value cfg10 req10 = JwtResult.failed spacesMsg :=
  claim_C10 cfg10 req10 rfl (by decide)

/-! ### Claim theorems for the payload builder -/

/-- Claim C7: every payload built by `jwt_payload_handler` contains the
claims user_id, is_admin, exp and the configured username-field claim;
and for a user exposing only identifier 42, staff flag and email, with
refresh disabled and no audience or issuer configured, the output is
exactly those four claims plus email and nothing else. -/
theorem claim_C7 :
    (∀ (st : ApiSettings) (now : Nat) (u : User),
       (dget (jwt_payload_handler st now u) "user_id").isSome = true ∧
       (dget (jwt_payload_handler st now u) "is_admin").isSome = true ∧
       (dget (jwt_payload_handler st now u) "exp").isSome = true ∧
       (dget (jwt_payload_handler st now u) st.usernameField).isSome = true) ∧
    (∀ (st : ApiSettings) (now : Nat) (un : String),
       st.JWT_ALLOW_REFRESH = false → st.JWT_AUDIENCE = none →
       st.JWT_ISSUER = none →
       st.usernameField ≠ "user_id" → st.usernameField ≠ "is_admin" →
       st.usernameField ≠ "exp" → st.usernameField ≠ "email" →
       jwt_payload_handler st now
         { pk := PK.int 42, is_staff := true, email := some "a@b.com",
           mobile := none, name := none, username := un,
           organization := none, assigned_to := none } =
         [("user_id", JVal.int 42), ("is_admin", JVal.bool true),
          ("exp", JVal.time (now + st.JWT_EXPIRATION_DELTA)),
          ("email", JVal.str "a@b.com"),
          (st.usernameField, JVal.str un)]) := by
  constructor
  · intro st now u
    refine ⟨?_, ?_, ?_, ?_⟩ <;>
      simp only [jwt_payload_handler] <;>
      (repeat first
        | exact isSome_dget_dset_self _ _ _
        | apply isSome_dget_hset
        | apply isSome_dget_dite
        | apply isSome_dget_dset
        | rfl)
  · intro st now un h1 h2 h3 h4 h5 h6 h7
    simp [jwt_payload_handler, hset, dset, isUuid, pkVal, h1, h2, h3,
      Ne.symm h4, Ne.symm h5, Ne.symm h6, Ne.symm h7]

/-- Witness for C7: the example user record of the spec with concrete
settings yields exactly the five expected claims. -/
theorem claim_C7_witness :
    jwt_payload_handler st7 100
      { pk := PK.int 42, is_staff := true, email := some "a@b.com",
        mobile := none, name := none, username := "johndoe",
        organization := none, assigned_to := none } =
      [("user_id", JVal.int 42), ("is_admin", JVal.bool true),
       ("exp", JVal.time 400), ("email", JVal.str "a@b.com"),
       ("username", JVal.str "johndoe")] :=
  claim_C7.2 st7 100 "johndoe" rfl rfl rfl (by decide) (by decide)
    (by decide) (by decide)

/-- Claim C8: for a user exposing assigned_to, a truthy assignee yields a
nested mapping with keys name, mobile and email copied from the
assignee; a null assignee yields an explicit null claim; and when the
attribute is absent the payload has no assigned_to claim at all. -/
theorem claim_C8 (st : ApiSettings) (now : Nat) (u : User)
    (huf : st.usernameField ≠ "assigned_to") :
    (∀ a, u.assigned_to = some (some a) →
       dget (jwt_payload_handler st now u) "assigned_to" =
         some (JVal.obj
           [("name", JVal.str a.name), ("mobile", JVal.str a.mobile),
            ("email", JVal.str a.email)])) ∧
    (u.assigned_to = some none →
       dget (jwt_payload_handler st now u) "assigned_to" = some JVal.null) ∧
    (u.assigned_to = none →
       dget (jwt_payload_handler st now u) "assigned_to" = none) := by
  refine ⟨?_, ?_, ?_⟩
  · intro a ha
    simp only [jwt_payload_handler]
    rw [dget_hset_ne _ _ (by decide : ("iss" : String) ≠ "assigned_to"),
      dget_hset_ne _ _ (by decide : ("aud" : String) ≠ "assigned_to"),
      dget_dite_ne _ _ _ (by decide : ("orig_iat" : String) ≠ "assigned_to"),
      ha]
    simp [hset, assignedToVal, dget_dset_self]
  · intro ha
    simp only [jwt_payload_handler]
    rw [dget_hset_ne _ _ (by decide : ("iss" : String) ≠ "assigned_to"),
      dget_hset_ne _ _ (by decide : ("aud" : String) ≠ "assigned_to"),
      dget_dite_ne _ _ _ (by decide : ("orig_iat" : String) ≠ "assigned_to"),
      ha]
    simp [hset, assignedToVal, dget_dset_self]
  · intro ha
    simp only [jwt_payload_handler]
    rw [dget_hset_ne _ _ (by decide : ("iss" : String) ≠ "assigned_to"),
      dget_hset_ne _ _ (by decide : ("aud" : String) ≠ "assigned_to"),
      dget_dite_ne _ _ _ (by decide : ("orig_iat" : String) ≠ "assigned_to"),
      ha]
    simp only [Option.map_none', hset_none]
    rw [dget_hset_ne _ _ (by decide : ("organization" : String) ≠ "assigned_to"),
      dget_dset_ne _ _ huf,
      dget_dite_ne _ _ _ (by decide : ("user_id" : String) ≠ "assigned_to"),
      dget_hset_ne _ _ (by decide : ("name" : String) ≠ "assigned_to"),
      dget_hset_ne _ _ (by decide : ("mobile" : String) ≠ "assigned_to"),
      dget_hset_ne _ _ (by decide : ("email" : String) ≠ "assigned_to")]
    rfl

/-- Witness for C8: a user with assigned_to present but null gets an
explicit null assigned_to claim. -/
theorem claim_C8_witness :
    dget (jwt_payload_handler st8 50 u8) "assigned_to" = some JVal.null :=
  (claim_C8 st8 50 u8 (by decide)).2.1 rfl

/-- Claim C9: the user_id claim is always present with a
scalar-serializable value, and when the identifier is a UUID it is the
canonical string form rather than the native UUID value. -/
theorem claim_C9 (st : ApiSettings) (now : Nat) (u : User) :
    (∃ v, dget (jwt_payload_handler st now u) "user_id" = some v ∧
       scalarSerializable v = true) ∧
    (∀ s, u.pk = PK.uuid s → st.usernameField ≠ "user_id" →
       dget (jwt_payload_handler st now u) "user_id" =
         some (JVal.str s)) := by
  constructor
  · simp only [jwt_payload_handler]
    rw [dget_hset_ne _ _ (by decide : ("iss" : String) ≠ "user_id"),
      dget_hset_ne _ _ (by decide : ("aud" : String) ≠ "user_id"),
      dget_dite_ne _ _ _ (by decide : ("orig_iat" : String) ≠ "user_id"),
      dget_hset_ne _ _ (by decide : ("assigned_to" : String) ≠ "user_id"),
      dget_hset_ne _ _ (by decide : ("organization" : String) ≠ "user_id")]
    by_cases huf : st.usernameField = "user_id"
    · rw [huf, dget_dset_self]
      exact ⟨JVal.str u.username, rfl, rfl⟩
    · rw [dget_dset_ne _ _ huf]
      cases hpk : u.pk with
      | uuid s =>
        simp only [isUuid, if_true, pkStr, dget_dset_self]
        exact ⟨JVal.str s, rfl, rfl⟩
      | int n =>
        simp only [isUuid, Bool.false_eq_true, if_false]
        rw [dget_hset_ne _ _ (by decide : ("name" : String) ≠ "user_id"),
          dget_hset_ne _ _ (by decide : ("mobile" : String) ≠ "user_id"),
          dget_hset_ne _ _ (by decide : ("email" : String) ≠ "user_id")]
        exact ⟨JVal.int n, rfl, rfl⟩
  · intro s hpk huf
    simp only [jwt_payload_handler]
    rw [dget_hset_ne _ _ (by decide : ("iss" : String) ≠ "user_id"),
      dget_hset_ne _ _ (by decide : ("aud" : String) ≠ "user_id"),
      dget_dite_ne _ _ _ (by decide : ("orig_iat" : String) ≠ "user_id"),
      dget_hset_ne _ _ (by decide : ("assigned_to" : String) ≠ "user_id"),
      dget_hset_ne _ _ (by decide : ("organization" : String) ≠ "user_id"),
      dget_dset_ne _ _ huf, hpk]
    simp only [isUuid, if_true, pkStr, dget_dset_self]

/-- Witness for C9: a user whose identifier is a UUID gets the canonical
string form as the user_id claim. -/
theorem claim_C9_witness :
    dget (jwt_payload_handler st9 50 u9) "user_id" =
      some (JVal.str "123e4567-e89b-12d3-a456-426655440000") :=
  (claim_C9 st9 50 u9).2 "123e4567-e89b-12d3-a456-426655440000" rfl (by decide)

end DrfAddons
